import Mathlib

/-!
Verification of the radosgw-exporter scrape-aggregate-publish pipeline.

The definitions below are a shallow embedding of the Go sources in
pkg/ceph_stats.go and pkg/metrics.go.  Machine integers (int64, uint64)
are modelled as Int and Nat: none of the properties below probes
overflow, and all counter arithmetic in the source stays well inside
64-bit range for the inputs the spec quantifies over.  Floating point
metric values are modelled as the exact integers the source converts
from (the quota-enabled gauge value 1.0 / 0.0 becomes 1 / 0).
External collaborators (the HTTP client, the AWS v4 signer, JSON
decoding) are passed in as explicit outcome parameters, exactly at the
points where the source calls out to them.
-/

namespace RGW

/-! ### Raw usage payload (pkg/ceph_stats.go, usageResponse and friends) -/

structure usageCategoryEntry where
  name : String
  bytesSent : Int
  bytesReceived : Int
  ops : Int
  successfulOps : Int
deriving DecidableEq

structure bucketUsageEntry where
  id : String
  owner : String
  categories : List usageCategoryEntry
deriving DecidableEq

structure usageEntry where
  user : String
  buckets : List bucketUsageEntry
deriving DecidableEq

structure usageResponse where
  entries : List usageEntry
deriving DecidableEq

/-! ### Usage aggregation (pkg/metrics.go, operationsCollector.FetchMetrics) -/

structure usageKey where
  owner : String
  bucket : String
  category : String
deriving DecidableEq

structure usageValue where
  opsTotal : Int
  opsSuccessful : Int
  sentBytesTotal : Int
  receivedBytesTotal : Int
deriving DecidableEq

def usageValue.zero : usageValue := usageValue.mk 0 0 0 0

def usageValue.add (a b : usageValue) : usageValue :=
  usageValue.mk (a.opsTotal + b.opsTotal) (a.opsSuccessful + b.opsSuccessful)
    (a.sentBytesTotal + b.sentBytesTotal) (a.receivedBytesTotal + b.receivedBytesTotal)

/-- One step of the inner loop of operationsCollector.FetchMetrics:
read the current value for the key (a missing Go map key reads as the
zero value), add the four counters of the category entry, store back. -/
def applyCategory (owner bucketName : String) (m : usageKey → usageValue)
    (category : usageCategoryEntry) : usageKey → usageValue :=
  fun k =>
    if k = usageKey.mk owner bucketName category.name then
      usageValue.mk
        ((m (usageKey.mk owner bucketName category.name)).opsTotal + category.ops)
        ((m (usageKey.mk owner bucketName category.name)).opsSuccessful + category.successfulOps)
        ((m (usageKey.mk owner bucketName category.name)).sentBytesTotal + category.bytesSent)
        ((m (usageKey.mk owner bucketName category.name)).receivedBytesTotal + category.bytesReceived)
    else m k

/-- The combinedUsageStats map built by the three nested loops of
operationsCollector.FetchMetrics, as a total function with Go map
default-zero read semantics. -/
def combineUsageStats (resp : usageResponse) : usageKey → usageValue :=
  resp.entries.foldl
    (fun m entry =>
      entry.buckets.foldl
        (fun m2 bucket => bucket.categories.foldl (applyCategory entry.user bucket.id) m2)
        m)
    (fun _ => usageValue.zero)

/-- One raw (key, counters) observation, as the nested loops visit it. -/
def rawOf (owner bucketName : String) (c : usageCategoryEntry) : usageKey × usageValue :=
  (usageKey.mk owner bucketName c.name,
   usageValue.mk c.ops c.successfulOps c.bytesSent c.bytesReceived)

def rawOfBuckets (owner : String) : List bucketUsageEntry → List (usageKey × usageValue)
  | [] => []
  | b :: rest => b.categories.map (rawOf owner b.id) ++ rawOfBuckets owner rest

def rawOfUsers : List usageEntry → List (usageKey × usageValue)
  | [] => []
  | e :: rest => rawOfBuckets e.user e.buckets ++ rawOfUsers rest

/-- The flattened list of raw usage observations of a payload, in the
order the nested loops of the source visit them. -/
def rawEntries (resp : usageResponse) : List (usageKey × usageValue) :=
  rawOfUsers resp.entries

/-- Accumulating one raw observation into the map. -/
def applyRaw (m : usageKey → usageValue) (e : usageKey × usageValue) : usageKey → usageValue :=
  fun k => if k = e.1 then usageValue.add (m e.1) e.2 else m k

/-- The counters of all raw observations whose key equals k, in order. -/
def valuesFor (k : usageKey) : List (usageKey × usageValue) → List usageValue
  | [] => []
  | e :: rest => if e.1 = k then e.2 :: valuesFor k rest else valuesFor k rest

def sumUsage : List usageValue → usageValue
  | [] => usageValue.zero
  | v :: rest => usageValue.add v (sumUsage rest)

theorem usageValue.add_zero_right (v : usageValue) : usageValue.add v usageValue.zero = v := by
  cases v; simp [usageValue.add, usageValue.zero]

theorem usageValue.zero_add_left (v : usageValue) : usageValue.add usageValue.zero v = v := by
  cases v; simp [usageValue.add, usageValue.zero]

theorem usageValue.add_assoc (a b c : usageValue) :
    usageValue.add (usageValue.add a b) c = usageValue.add a (usageValue.add b c) := by
  cases a; cases b; cases c
  simp [usageValue.add]
  omega

theorem usageValue.add_left_comm (a b c : usageValue) :
    usageValue.add a (usageValue.add b c) = usageValue.add b (usageValue.add a c) := by
  cases a; cases b; cases c
  simp [usageValue.add]
  omega

theorem applyCategory_eq_applyRaw (owner bucketName : String)
    (m : usageKey → usageValue) (c : usageCategoryEntry) :
    applyCategory owner bucketName m c = applyRaw m (rawOf owner bucketName c) := by
  funext k
  simp [applyCategory, applyRaw, rawOf, usageValue.add]

theorem catFold (cats : List usageCategoryEntry) (owner bucketName : String)
    (m : usageKey → usageValue) :
    cats.foldl (applyCategory owner bucketName) m
      = (cats.map (rawOf owner bucketName)).foldl applyRaw m := by
  induction cats generalizing m with
  | nil => rfl
  | cons c rest ih =>
    simp only [List.foldl_cons, List.map_cons]
    rw [applyCategory_eq_applyRaw, ih]

theorem bucketFold (bs : List bucketUsageEntry) (owner : String)
    (m : usageKey → usageValue) :
    bs.foldl (fun m2 bucket => bucket.categories.foldl (applyCategory owner bucket.id) m2) m
      = (rawOfBuckets owner bs).foldl applyRaw m := by
  induction bs generalizing m with
  | nil => rfl
  | cons b rest ih =>
    simp only [List.foldl_cons, rawOfBuckets, List.foldl_append]
    rw [catFold, ih]

theorem userFold (es : List usageEntry) (m : usageKey → usageValue) :
    es.foldl
        (fun m entry =>
          entry.buckets.foldl
            (fun m2 bucket => bucket.categories.foldl (applyCategory entry.user bucket.id) m2)
            m)
        m
      = (rawOfUsers es).foldl applyRaw m := by
  induction es generalizing m with
  | nil => rfl
  | cons e rest ih =>
    simp only [List.foldl_cons, rawOfUsers, List.foldl_append]
    rw [bucketFold, ih]

theorem combine_eq_foldl (resp : usageResponse) :
    combineUsageStats resp = (rawEntries resp).foldl applyRaw (fun _ => usageValue.zero) := by
  unfold combineUsageStats rawEntries
  exact userFold resp.entries _

theorem foldl_applyRaw_eval (l : List (usageKey × usageValue)) :
    ∀ (m : usageKey → usageValue) (k : usageKey),
      (l.foldl applyRaw m) k = usageValue.add (m k) (sumUsage (valuesFor k l)) := by
  induction l with
  | nil =>
    intro m k
    simp [sumUsage, valuesFor, usageValue.add_zero_right]
  | cons e rest ih =>
    intro m k
    simp only [List.foldl_cons]
    rw [ih]
    by_cases h : e.1 = k
    · subst h
      simp only [applyRaw, valuesFor, sumUsage, if_true, eq_self_iff_true]
      rw [usageValue.add_assoc]
    · have h2 : ¬(k = e.1) := fun hk => h hk.symm
      simp only [applyRaw, if_neg h2, valuesFor, if_neg h]

theorem combine_eval (resp : usageResponse) (k : usageKey) :
    combineUsageStats resp k = sumUsage (valuesFor k (rawEntries resp)) := by
  rw [combine_eq_foldl, foldl_applyRaw_eval]
  exact usageValue.zero_add_left _

theorem sumUsage_perm {l1 l2 : List usageValue} (h : l1.Perm l2) :
    sumUsage l1 = sumUsage l2 := by
  induction h with
  | nil => rfl
  | cons x _ ih => simp only [sumUsage, ih]
  | swap x y l => simp only [sumUsage]; rw [usageValue.add_left_comm]
  | trans _ _ ih1 ih2 => exact ih1.trans ih2

theorem valuesFor_perm (k : usageKey) {l1 l2 : List (usageKey × usageValue)}
    (h : l1.Perm l2) : (valuesFor k l1).Perm (valuesFor k l2) := by
  induction h with
  | nil => exact List.Perm.refl _
  | cons e _ ih =>
    by_cases he : e.1 = k
    · simp only [valuesFor, if_pos he]
      exact ih.cons _
    · simp only [valuesFor, if_neg he]
      exact ih
  | swap x y l =>
    by_cases hx : x.1 = k <;> by_cases hy : y.1 = k
    · simp only [valuesFor, if_pos hx, if_pos hy]
      exact List.Perm.swap _ _ _
    · simp only [valuesFor, if_pos hx, if_neg hy]
      exact List.Perm.refl _
    · simp only [valuesFor, if_neg hx, if_pos hy]
      exact List.Perm.refl _
    · simp only [valuesFor, if_neg hx, if_neg hy]
      exact List.Perm.refl _
  | trans _ _ ih1 ih2 => exact ih1.trans ih2

/-! ### Metric records (prometheus.MustNewConstMetric wrapped with the scrape timestamp) -/

/-- One fully-formed metric record: series name, label values in the
order the source passes them, the (integral) sample value, and the
wall-clock timestamp of the scrape start. -/
structure Metric where
  name : String
  labelValues : List String
  value : Int
  timestamp : Nat
deriving DecidableEq

/-- The key set of the combinedUsageStats map: each raw observation
inserts its key if it is not present yet. -/
def insertKeyIfNew (ks : List usageKey) (k : usageKey) : List usageKey :=
  if k ∈ ks then ks else ks ++ [k]

def usageKeysOf (resp : usageResponse) : List usageKey :=
  (rawEntries resp).foldl (fun ks e => insertKeyIfNew ks e.1) []

/-- The four series emitted for one aggregated usage key
(operationsCollector.FetchMetrics, the metrics-building loop). -/
def opsMetricsForKey (start : Nat) (resp : usageResponse) (k : usageKey) : List Metric :=
  [ Metric.mk "radosgw_usage_opts_total" [k.bucket, k.owner, k.category]
      (combineUsageStats resp k).opsTotal start,
    Metric.mk "radosgw_usage_successful_ops_total" [k.bucket, k.owner, k.category]
      (combineUsageStats resp k).opsSuccessful start,
    Metric.mk "radosgw_usage_sent_bytes_total" [k.bucket, k.owner, k.category]
      (combineUsageStats resp k).sentBytesTotal start,
    Metric.mk "radosgw_usage_received_bytes_total" [k.bucket, k.owner, k.category]
      (combineUsageStats resp k).receivedBytesTotal start ]

def opsMetricsAux (start : Nat) (resp : usageResponse) : List usageKey → List Metric
  | [] => []
  | k :: rest => opsMetricsForKey start resp k ++ opsMetricsAux start resp rest

/-- The snapshot published by the operations collector on a successful
scrape.  The Go map iteration order is unspecified; first-insertion
order is used as one admissible order (the spec makes ordering
irrelevant). -/
def opsMetrics (start : Nat) (resp : usageResponse) : List Metric :=
  opsMetricsAux start resp (usageKeysOf resp)

/-! ### Bucket stats (pkg/ceph_stats.go bucketInfoEntry, pkg/metrics.go bucketsCollector) -/

structure bucketInfoUsageEntry where
  size : Nat
  utilizedSize : Nat
  numObjects : Nat
deriving DecidableEq

structure bucketQuotaEntry where
  enabled : Bool
  maxSize : Int
  maxObjects : Int
deriving DecidableEq

/-- One decoded bucket-stats record.  The numShards field is
Modelled from the spec: the given source extract of ceph_stats.go omits
the shard-count field declaration of bucketInfoEntry, while
bucketsCollector.FetchMetrics reads bucketInfo.NumShards; the spec data
model lists a shard count on BucketInfo.  The usage field is the JSON
object keyed by storage class, as a key-distinct association list. -/
structure bucketInfoEntry where
  name : String
  owner : String
  zoneGroup : String
  numShards : Nat
  usage : List (String × bucketInfoUsageEntry)
  quota : bucketQuotaEntry
deriving DecidableEq

/-- The series emitted for one bucket, in source order: shard count,
then (only when the usage map has an entry for storage class
"rgw.main") used bytes, utilized bytes and object count, then the
three quota series, emitted unconditionally. -/
def bucketMetricsFor (start : Nat) (b : bucketInfoEntry) : List Metric :=
  Metric.mk "radosgw_usage_bucket_shards" [b.name, b.owner, b.zoneGroup]
      (Int.ofNat b.numShards) start
  :: ((match b.usage.lookup "rgw.main" with
       | some u =>
         [ Metric.mk "radosgw_usage_bucket_bytes" [b.name, b.owner, b.zoneGroup]
             (Int.ofNat u.size) start,
           Metric.mk "radosgw_usage_bucket_utilized_bytes" [b.name, b.owner, b.zoneGroup]
             (Int.ofNat u.utilizedSize) start,
           Metric.mk "radosgw_usage_bucket_objects" [b.name, b.owner, b.zoneGroup]
             (Int.ofNat u.numObjects) start ]
       | none => [])
      ++ [ Metric.mk "radosgw_usage_bucket_quota_enabled" [b.name, b.owner, b.zoneGroup]
             (if b.quota.enabled then 1 else 0) start,
           Metric.mk "radosgw_usage_bucket_quota_size_bytes" [b.name, b.owner, b.zoneGroup]
             b.quota.maxSize start,
           Metric.mk "radosgw_usage_bucket_quota_size_objects" [b.name, b.owner, b.zoneGroup]
             b.quota.maxObjects start ])

/-- The snapshot published by the buckets collector on a successful scrape. -/
def bucketMetrics (start : Nat) : List bucketInfoEntry → List Metric
  | [] => []
  | b :: rest => bucketMetricsFor start b ++ bucketMetrics start rest

/-! ### User quota stats (pkg/ceph_stats.go userStats, pkg/metrics.go userInfoCollector) -/

structure userStats where
  enabled : Bool
  maxSize : Int
  maxObjects : Int
deriving DecidableEq

/-- The three series emitted for one user by userInfoCollector. -/
def userMetricsFor (start : Nat) (user : String) (s : userStats) : List Metric :=
  [ Metric.mk "radosgw_usage_user_quota_enabled" [user] (if s.enabled then 1 else 0) start,
    Metric.mk "radosgw_usage_user_quota_size_bytes" [user] s.maxSize start,
    Metric.mk "radosgw_usage_user_quota_size_objects" [user] s.maxObjects start ]

/-- The snapshot published by the user-info collector.  The user ids
returned by the admin API user list are distinct, so the Go map over
user ids is modelled as a key-distinct association list. -/
def userMetrics (start : Nat) : List (String × userStats) → List Metric
  | [] => []
  | (user, s) :: rest => userMetricsFor start user s ++ userMetrics start rest

/-! ### The signed admin-API request (pkg/ceph_stats.go queryCephAdminAPI) -/

/-- The observable outcome of one http.Client.Do call: the HTTP status,
the outcome of reading the body, and the outcome of closing it. -/
structure httpResponse where
  statusCode : Nat
  status : String
  readResult : Except String String
  closeResult : Option String

/-- queryCephAdminAPI: sign the request, perform it, read and close the
body, then require status 200 OK.  The signer and the HTTP client are
external collaborators, passed in as their outcomes. -/
def queryCephAdminAPI (signResult : Option String)
    (doResult : Except String httpResponse) : Except String String :=
  match signResult with
  | some e => Except.error ("failed to sign request - " ++ e)
  | none =>
    match doResult with
    | Except.error e => Except.error ("failed to do request - " ++ e)
    | Except.ok resp =>
      match resp.readResult with
      | Except.error e => Except.error ("failed to read response body - " ++ e)
      | Except.ok body =>
        match resp.closeResult with
        | some e => Except.error ("failed to close response body - " ++ e)
        | none =>
          if resp.statusCode = 200 then Except.ok body
          else Except.error ("server returned " ++ resp.status ++ " - Body: " ++ body)

/-- getCephUsageStats: query admin/usage, then JSON-decode the body
(decoding is an external collaborator, passed as its outcome map). -/
def getCephUsageStats (signResult : Option String)
    (doResult : Except String httpResponse)
    (decodeUsage : String → Except String usageResponse) : Except String usageResponse :=
  match queryCephAdminAPI signResult doResult with
  | Except.error e => Except.error ("failed to get usage stats from ceph - " ++ e)
  | Except.ok body =>
    match decodeUsage body with
    | Except.error e => Except.error ("failed to unmarshall ceph usage response - " ++ e)
    | Except.ok usage => Except.ok usage

/-- getCephBucketStats: query admin/bucket, then JSON-decode the body. -/
def getCephBucketStats (signResult : Option String)
    (doResult : Except String httpResponse)
    (decodeBuckets : String → Except String (List bucketInfoEntry)) :
    Except String (List bucketInfoEntry) :=
  match queryCephAdminAPI signResult doResult with
  | Except.error e => Except.error ("failed to get bucket stats from ceph - " ++ e)
  | Except.ok body =>
    match decodeBuckets body with
    | Except.error e => Except.error ("failed to unmarshall ceph bucket response - " ++ e)
    | Except.ok stats => Except.ok stats

/-- getUserList: query admin/user?list, then JSON-decode the key list. -/
def getUserList (signResult : Option String)
    (doResult : Except String httpResponse)
    (decodeUserList : String → Except String (List String)) : Except String (List String) :=
  match queryCephAdminAPI signResult doResult with
  | Except.error e => Except.error ("failed to get user list from ceph - " ++ e)
  | Except.ok body =>
    match decodeUserList body with
    | Except.error e => Except.error ("failed to unmarshall ceph user list response - " ++ e)
    | Except.ok users => Except.ok users

/-- One per-user quota lookup of the fan-out loop in
getCephUserQuotaStats: query admin/user?quota for the uid, then decode. -/
def lookupUserQuota (signResult : String → Option String)
    (doResult : String → Except String httpResponse)
    (decodeUser : String → Except String userStats) (user : String) :
    Except String userStats :=
  match queryCephAdminAPI (signResult user) (doResult user) with
  | Except.error e => Except.error ("failed to get user stats from ceph - " ++ e)
  | Except.ok body =>
    match decodeUser body with
    | Except.error e => Except.error ("failed to unmarshall ceph user stats response - " ++ e)
    | Except.ok s => Except.ok s

/-- The fan-out loop of getCephUserQuotaStats: one lookup per user, in
list order; the first failing lookup aborts the whole fetch with its
error and no map is returned. -/
def collectUserStats (lookup : String → Except String userStats) :
    List String → Except String (List (String × userStats))
  | [] => Except.ok []
  | u :: rest =>
    match lookup u with
    | Except.error e => Except.error e
    | Except.ok s =>
      match collectUserStats lookup rest with
      | Except.error e => Except.error e
      | Except.ok m => Except.ok ((u, s) :: m)

/-- getCephUserQuotaStats: list all user ids, then one quota lookup per
user; any failure yields an error and no map at all. -/
def getCephUserQuotaStats (userListResult : Except String (List String))
    (lookup : String → Except String userStats) :
    Except String (List (String × userStats)) :=
  match userListResult with
  | Except.error e => Except.error e
  | Except.ok users => collectUserStats lookup users

def isErr {ε α : Type} : Except ε α → Bool
  | Except.error _ => true
  | Except.ok _ => false

/-! ### The collector cycle (the closure inside each FetchMetrics loop) -/

structure scrapeCounters where
  success : Nat
  error : Nat
deriving DecidableEq

/-- The persistent state of one collector: the published snapshot, the
scrape-duration gauge value, and the success/error scrape counters. -/
structure collectorState (M : Type) where
  metrics : List M
  durationGauge : Nat
  counters : scrapeCounters

/-- What Collect answers to the exposition reader: the current snapshot. -/
def collectorAnswer {M : Type} (st : collectorState M) : List M := st.metrics

/-- One scrape cycle, common to all three FetchMetrics loops: record the
start, call the fetcher, set the duration gauge to the elapsed time of
the fetch, then either (error) bump the error counter and leave the
snapshot untouched, or (success) bump the success counter, run the
transform and swap the snapshot wholesale. -/
def runCycle {α M : Type} (transform : α → List M) (fetched : Except String α)
    (elapsed : Nat) (st : collectorState M) : collectorState M :=
  match fetched with
  | Except.error _ =>
    collectorState.mk st.metrics elapsed (scrapeCounters.mk st.counters.success (st.counters.error + 1))
  | Except.ok payload =>
    collectorState.mk (transform payload) elapsed (scrapeCounters.mk (st.counters.success + 1) st.counters.error)

/-! ### The scheduling loop (the for/select skeleton of FetchMetrics) -/

inductive loopEvent where
  | cycleStart (i : Nat)
  | cycleEnd (i : Nat)
  | tickWait (i : Nat)
deriving DecidableEq

/-- The event trace of one FetchMetrics goroutine that completes n full
iterations before observing cancellation: each iteration runs the whole
scrape cycle (start to end) and only then blocks on the ticker.  The
first argument is the index of the next cycle. -/
def collectorLoopTrace : Nat → Nat → List loopEvent
  | _, 0 => []
  | i, Nat.succ fuel =>
    loopEvent.cycleStart i :: loopEvent.cycleEnd i :: loopEvent.tickWait i
      :: collectorLoopTrace (i + 1) fuel

/-! ### The exposition reader (operationsCollector.Collect and siblings) -/

inductive collectAction where
  | lock
  | unlock
  | send (m : Metric)
deriving DecidableEq

/-- The action trace of one Collect call as the source performs it:
take the mutex, send every snapshot metric on the gathering channel,
and release the mutex only on return (deferred unlock). -/
def collectTrace (snapshot : List Metric) : List collectAction :=
  collectAction.lock :: (snapshot.map collectAction.send ++ [collectAction.unlock])

/-- Modelled from the spec: the reader behaviour the spec describes
for the exposition path - acquire the lock, copy the snapshot
reference, release the lock, and only then serialize the copied
series.  Stated for comparison with collectTrace, which is what the
source does. -/
def specCollectTrace (snapshot : List Metric) : List collectAction :=
  collectAction.lock :: collectAction.unlock :: snapshot.map collectAction.send

/-- True when some send action happens while the lock depth is
positive; the first argument is the lock depth already held. -/
def sendWhileLocked : Nat → List collectAction → Bool
  | _, [] => false
  | d, collectAction.lock :: rest => sendWhileLocked (d + 1) rest
  | d, collectAction.unlock :: rest => sendWhileLocked (d - 1) rest
  | d, collectAction.send _ :: rest => decide (0 < d) || sendWhileLocked d rest

/-- True when every send action happens while the lock depth is positive. -/
def allSendsLocked : Nat → List collectAction → Bool
  | _, [] => true
  | d, collectAction.lock :: rest => allSendsLocked (d + 1) rest
  | d, collectAction.unlock :: rest => allSendsLocked (d - 1) rest
  | d, collectAction.send _ :: rest => decide (0 < d) && allSendsLocked d rest

/-! ### Concrete fixtures -/

/-- The duplicate-key fixture of the spec: two rows, both keyed
(owner alice, bucket b1, category put_obj), with ops 3 and 4,
successful ops 3 and 3, bytes sent 100 and 50 (bytes received 0). -/
def usageRespA : usageResponse :=
  usageResponse.mk
    [ usageEntry.mk "alice"
        [bucketUsageEntry.mk "b1" "alice" [usageCategoryEntry.mk "put_obj" 100 0 3 3]],
      usageEntry.mk "alice"
        [bucketUsageEntry.mk "b1" "alice" [usageCategoryEntry.mk "put_obj" 50 0 4 3]] ]

/-- The same fixture with the two payload rows in the other order. -/
def usageRespB : usageResponse :=
  usageResponse.mk
    [ usageEntry.mk "alice"
        [bucketUsageEntry.mk "b1" "alice" [usageCategoryEntry.mk "put_obj" 50 0 4 3]],
      usageEntry.mk "alice"
        [bucketUsageEntry.mk "b1" "alice" [usageCategoryEntry.mk "put_obj" 100 0 3 3]] ]

def keyA : usageKey := usageKey.mk "alice" "b1" "put_obj"

/-! ### Claim theorems -/

theorem mem_opsMetricsAux (start : Nat) (resp : usageResponse) (ks : List usageKey)
    (k : usageKey) (h : k ∈ ks) :
    Metric.mk "radosgw_usage_opts_total" [k.bucket, k.owner, k.category]
        (combineUsageStats resp k).opsTotal start ∈ opsMetricsAux start resp ks := by
  induction ks with
  | nil => cases h
  | cons k0 rest ih =>
    rcases List.mem_cons.mp h with h1 | h2
    · subst h1
      simp [opsMetricsAux, opsMetricsForKey]
    · simp only [opsMetricsAux, List.mem_append]
      exact Or.inr (ih h2)

/-- C1 counterexample: on the duplicate-key fixture of the claim
(ops 3 and 4, successful ops 3 and 3, bytes sent 100 and 50), the
aggregated successful-ops total computed by the source is 6, not the 7
the claim states. -/
theorem usage_fixture_successful_ops_is_six :
    (combineUsageStats usageRespA keyA).opsSuccessful = 6
      ∧ (combineUsageStats usageRespA keyA).opsSuccessful ≠ 7 := by
  constructor
  · decide
  · decide

/-- C1 (amended): for every fetched usage payload and every usage key,
the aggregate the operations collector publishes for that key is the
exact componentwise sum of the counters of all raw category entries
whose key equals it - no raw entry dropped or double counted; the
result is invariant under reordering of the raw entries; for every key
of the payload the published snapshot carries the ops-total series with
that exact sum; and on the two-row fixture keyed
(alice, b1, put_obj) with ops 3 and 4, successful ops 3 and 3, bytes
sent 100 and 50, the output reports ops total 7, successful ops 6, and
bytes sent 150. -/
theorem usage_aggregation_exact :
    (∀ (resp : usageResponse) (k : usageKey),
        combineUsageStats resp k = sumUsage (valuesFor k (rawEntries resp)))
    ∧ (∀ (r1 r2 : usageResponse) (k : usageKey),
        (rawEntries r1).Perm (rawEntries r2) →
        combineUsageStats r1 k = combineUsageStats r2 k)
    ∧ (∀ (start : Nat) (resp : usageResponse) (k : usageKey),
        k ∈ usageKeysOf resp →
        Metric.mk "radosgw_usage_opts_total" [k.bucket, k.owner, k.category]
          (sumUsage (valuesFor k (rawEntries resp))).opsTotal start ∈ opsMetrics start resp)
    ∧ combineUsageStats usageRespA keyA = usageValue.mk 7 6 150 0 := by
  refine ⟨combine_eval, ?_, ?_, by decide⟩
  · intro r1 r2 k h
    rw [combine_eval, combine_eval]
    exact sumUsage_perm (valuesFor_perm k h)
  · intro start resp k h
    rw [← combine_eval]
    exact mem_opsMetricsAux start resp (usageKeysOf resp) k h

/-- C1 witness: the amended theorem applied to the concrete fixture -
the aggregate is the same for the two row orders, and the published
snapshot of the fixture carries the ops-total series for the key. -/
theorem usage_aggregation_exact_witness :
    combineUsageStats usageRespA keyA = combineUsageStats usageRespB keyA
    ∧ Metric.mk "radosgw_usage_opts_total" [keyA.bucket, keyA.owner, keyA.category]
        (sumUsage (valuesFor keyA (rawEntries usageRespA))).opsTotal 0 ∈ opsMetrics 0 usageRespA :=
  And.intro
    (usage_aggregation_exact.2.1 usageRespA usageRespB keyA (by decide))
    (usage_aggregation_exact.2.2.1 0 usageRespA keyA (by decide))

/-- C2: a cycle whose fetch errors leaves the published snapshot
unchanged (the same list stays the answer to exposition queries),
increments the error counter by exactly one and leaves the success
counter alone; a cycle whose fetch succeeds increments the success
counter and leaves the error counter alone. -/
theorem cycle_error_preserves_snapshot :
    ∀ (α M : Type) (transform : α → List M) (e : String) (payload : α)
      (elapsed : Nat) (st : collectorState M),
      (collectorAnswer (runCycle transform (Except.error e) elapsed st) = collectorAnswer st
        ∧ (runCycle transform (Except.error e) elapsed st).counters.error = st.counters.error + 1
        ∧ (runCycle transform (Except.error e) elapsed st).counters.success = st.counters.success)
      ∧ ((runCycle transform (Except.ok payload) elapsed st).counters.success = st.counters.success + 1
        ∧ (runCycle transform (Except.ok payload) elapsed st).counters.error = st.counters.error) :=
  fun _ _ _ _ _ _ _ => ⟨⟨rfl, rfl, rfl⟩, rfl, rfl⟩

theorem isErr_exists {ε α : Type} (f : Except ε α) (h : isErr f = true) :
    ∃ e, f = Except.error e := by
  cases f with
  | error e => exact ⟨e, rfl⟩
  | ok a => simp [isErr] at h

theorem collectUserStats_isErr (lookup : String → Except String userStats)
    (users : List String) :
    isErr (collectUserStats lookup users) = true ↔ ∃ u ∈ users, isErr (lookup u) = true := by
  induction users with
  | nil => simp [collectUserStats, isErr]
  | cons u rest ih =>
    cases hu : lookup u with
    | error e =>
      have hc : collectUserStats lookup (u :: rest) = Except.error e := by
        simp [collectUserStats, hu]
      rw [hc]
      constructor
      · intro _
        exact ⟨u, List.mem_cons_self u rest, by rw [hu]; rfl⟩
      · intro _
        rfl
    | ok s =>
      cases hr : collectUserStats lookup rest with
      | error e2 =>
        have hc : collectUserStats lookup (u :: rest) = Except.error e2 := by
          simp [collectUserStats, hu, hr]
        rw [hc]
        constructor
        · intro _
          obtain ⟨v, hv, hfv⟩ := ih.mp (by rw [hr]; rfl)
          exact ⟨v, List.mem_cons_of_mem u hv, hfv⟩
        · intro _
          rfl
      | ok m =>
        have hc : collectUserStats lookup (u :: rest) = Except.ok ((u, s) :: m) := by
          simp [collectUserStats, hu, hr]
        rw [hc]
        constructor
        · intro h
          exact absurd h (by simp [isErr])
        · intro hex
          obtain ⟨v, hv, hfv⟩ := hex
          rcases List.mem_cons.mp hv with h1 | h2
          · subst h1
            rw [hu] at hfv
            exact absurd hfv (by simp [isErr])
          · have h3 : isErr (collectUserStats lookup rest) = true := ih.mpr ⟨v, h2, hfv⟩
            rw [hr] at h3
            exact absurd h3 (by simp [isErr])

/-- C3: if the quota lookup for any user in the listed user set fails,
the whole user-quota fetch returns an error and no map, and the cycle
publishes nothing: the previous snapshot stays, the error counter is
bumped, the success counter is not. -/
theorem user_fanout_all_or_nothing (users : List String)
    (lookup : String → Except String userStats) (u : String)
    (hmem : u ∈ users) (hfail : isErr (lookup u) = true) :
    isErr (getCephUserQuotaStats (Except.ok users) lookup) = true
    ∧ ∀ (start elapsed : Nat) (st : collectorState Metric),
        collectorAnswer (runCycle (userMetrics start)
            (getCephUserQuotaStats (Except.ok users) lookup) elapsed st) = collectorAnswer st
        ∧ (runCycle (userMetrics start)
            (getCephUserQuotaStats (Except.ok users) lookup) elapsed st).counters.error
          = st.counters.error + 1
        ∧ (runCycle (userMetrics start)
            (getCephUserQuotaStats (Except.ok users) lookup) elapsed st).counters.success
          = st.counters.success := by
  have herr : isErr (getCephUserQuotaStats (Except.ok users) lookup) = true :=
    (collectUserStats_isErr lookup users).mpr ⟨u, hmem, hfail⟩
  refine ⟨herr, ?_⟩
  intro start elapsed st
  obtain ⟨e, he⟩ := isErr_exists _ herr
  rw [he]
  exact ⟨rfl, rfl, rfl⟩

/-- A per-user lookup table where the third of five users fails. -/
def failingLookup : String → Except String userStats :=
  fun u => if u = "u3" then Except.error "quota lookup failed" else Except.ok (userStats.mk true 10 20)

def stateBefore : collectorState Metric :=
  collectorState.mk [Metric.mk "radosgw_usage_user_quota_enabled" ["old"] 1 0] 4 (scrapeCounters.mk 2 1)

/-- C3 witness: on a five-user list whose third lookup fails, the fetch
errors and the cycle keeps the old snapshot and bumps only the error
counter. -/
theorem user_fanout_all_or_nothing_witness :
    isErr (getCephUserQuotaStats (Except.ok ["u1", "u2", "u3", "u4", "u5"]) failingLookup) = true
    ∧ collectorAnswer (runCycle (userMetrics 9)
        (getCephUserQuotaStats (Except.ok ["u1", "u2", "u3", "u4", "u5"]) failingLookup) 5
        stateBefore) = collectorAnswer stateBefore :=
  have h := user_fanout_all_or_nothing ["u1", "u2", "u3", "u4", "u5"] failingLookup "u3"
    (by decide) (by decide)
  ⟨h.1, (h.2 9 5 stateBefore).1⟩

theorem mem_bucketMetrics (start : Nat) (stats : List bucketInfoEntry)
    (b : bucketInfoEntry) (hb : b ∈ stats) (m : Metric)
    (hm : m ∈ bucketMetricsFor start b) : m ∈ bucketMetrics start stats := by
  induction stats with
  | nil => cases hb
  | cons b0 rest ih =>
    rcases List.mem_cons.mp hb with h1 | h2
    · subst h1
      simp only [bucketMetrics, List.mem_append]
      exact Or.inl hm
    · simp only [bucketMetrics, List.mem_append]
      exact Or.inr (ih h2)

/-- C4: a bucket whose usage map has no rgw.main entry gets exactly the
shard-count series and the three quota series (no used-bytes,
utilized-bytes or object-count series); a bucket with an rgw.main entry
additionally gets those three series with the reported sizes and object
count; and a successful bucket scrape always publishes and counts as a
success, whether or not any bucket has the category. -/
theorem bucket_main_usage_conditional (start : Nat) (b : bucketInfoEntry) :
    (b.usage.lookup "rgw.main" = none →
      bucketMetricsFor start b =
        [ Metric.mk "radosgw_usage_bucket_shards" [b.name, b.owner, b.zoneGroup]
            (Int.ofNat b.numShards) start,
          Metric.mk "radosgw_usage_bucket_quota_enabled" [b.name, b.owner, b.zoneGroup]
            (if b.quota.enabled then 1 else 0) start,
          Metric.mk "radosgw_usage_bucket_quota_size_bytes" [b.name, b.owner, b.zoneGroup]
            b.quota.maxSize start,
          Metric.mk "radosgw_usage_bucket_quota_size_objects" [b.name, b.owner, b.zoneGroup]
            b.quota.maxObjects start ])
    ∧ (∀ u, b.usage.lookup "rgw.main" = some u →
      bucketMetricsFor start b =
        [ Metric.mk "radosgw_usage_bucket_shards" [b.name, b.owner, b.zoneGroup]
            (Int.ofNat b.numShards) start,
          Metric.mk "radosgw_usage_bucket_bytes" [b.name, b.owner, b.zoneGroup]
            (Int.ofNat u.size) start,
          Metric.mk "radosgw_usage_bucket_utilized_bytes" [b.name, b.owner, b.zoneGroup]
            (Int.ofNat u.utilizedSize) start,
          Metric.mk "radosgw_usage_bucket_objects" [b.name, b.owner, b.zoneGroup]
            (Int.ofNat u.numObjects) start,
          Metric.mk "radosgw_usage_bucket_quota_enabled" [b.name, b.owner, b.zoneGroup]
            (if b.quota.enabled then 1 else 0) start,
          Metric.mk "radosgw_usage_bucket_quota_size_bytes" [b.name, b.owner, b.zoneGroup]
            b.quota.maxSize start,
          Metric.mk "radosgw_usage_bucket_quota_size_objects" [b.name, b.owner, b.zoneGroup]
            b.quota.maxObjects start ])
    ∧ (∀ (stats : List bucketInfoEntry) (elapsed : Nat) (st : collectorState Metric),
        (runCycle (bucketMetrics start) (Except.ok stats) elapsed st).counters.success
          = st.counters.success + 1
        ∧ (runCycle (bucketMetrics start) (Except.ok stats) elapsed st).metrics
          = bucketMetrics start stats) := by
  refine ⟨?_, ?_, ?_⟩
  · intro h
    simp [bucketMetricsFor, h]
  · intro u h
    simp [bucketMetricsFor, h]
  · intro stats elapsed st
    exact ⟨rfl, rfl⟩

/-- A bucket whose usage map has no rgw.main entry. -/
def bucketNoMain : bucketInfoEntry :=
  bucketInfoEntry.mk "b2" "bob" "zg1" 11 [("rgw.multimeta", bucketInfoUsageEntry.mk 1 2 3)]
    (bucketQuotaEntry.mk false 0 0)

/-- A bucket whose usage map has an rgw.main entry. -/
def bucketWithMain : bucketInfoEntry :=
  bucketInfoEntry.mk "b3" "carol" "zg1" 13 [("rgw.main", bucketInfoUsageEntry.mk 400 380 9)]
    (bucketQuotaEntry.mk true 1000 50)

/-- C4 witness: the theorem applied to one bucket lacking rgw.main and
one having it. -/
theorem bucket_main_usage_conditional_witness :
    bucketMetricsFor 0 bucketNoMain =
      [ Metric.mk "radosgw_usage_bucket_shards" ["b2", "bob", "zg1"] 11 0,
        Metric.mk "radosgw_usage_bucket_quota_enabled" ["b2", "bob", "zg1"] 0 0,
        Metric.mk "radosgw_usage_bucket_quota_size_bytes" ["b2", "bob", "zg1"] 0 0,
        Metric.mk "radosgw_usage_bucket_quota_size_objects" ["b2", "bob", "zg1"] 0 0 ]
    ∧ bucketMetricsFor 0 bucketWithMain =
      [ Metric.mk "radosgw_usage_bucket_shards" ["b3", "carol", "zg1"] 13 0,
        Metric.mk "radosgw_usage_bucket_bytes" ["b3", "carol", "zg1"] 400 0,
        Metric.mk "radosgw_usage_bucket_utilized_bytes" ["b3", "carol", "zg1"] 380 0,
        Metric.mk "radosgw_usage_bucket_objects" ["b3", "carol", "zg1"] 9 0,
        Metric.mk "radosgw_usage_bucket_quota_enabled" ["b3", "carol", "zg1"] 1 0,
        Metric.mk "radosgw_usage_bucket_quota_size_bytes" ["b3", "carol", "zg1"] 1000 0,
        Metric.mk "radosgw_usage_bucket_quota_size_objects" ["b3", "carol", "zg1"] 50 0 ] :=
  And.intro
    ((bucket_main_usage_conditional 0 bucketNoMain).1 (by decide))
    ((bucket_main_usage_conditional 0 bucketWithMain).2.1 (bucketInfoUsageEntry.mk 400 380 9)
      (by decide))

/-- C5: every bucket of a fetched payload gets a quota-enabled series
valued 1 when the quota is enabled and 0 when it is not, a
quota-max-size series and a quota-max-objects series carrying the
configured limits, whatever the quota flag and limits are. -/
theorem bucket_quota_series_unconditional (start : Nat) (stats : List bucketInfoEntry)
    (b : bucketInfoEntry) (hb : b ∈ stats) :
    Metric.mk "radosgw_usage_bucket_quota_enabled" [b.name, b.owner, b.zoneGroup]
        (if b.quota.enabled then 1 else 0) start ∈ bucketMetrics start stats
    ∧ Metric.mk "radosgw_usage_bucket_quota_size_bytes" [b.name, b.owner, b.zoneGroup]
        b.quota.maxSize start ∈ bucketMetrics start stats
    ∧ Metric.mk "radosgw_usage_bucket_quota_size_objects" [b.name, b.owner, b.zoneGroup]
        b.quota.maxObjects start ∈ bucketMetrics start stats := by
  have hmem : ∀ m, m ∈ bucketMetricsFor start b → m ∈ bucketMetrics start stats :=
    fun m hm => mem_bucketMetrics start stats b hb m hm
  refine ⟨hmem _ ?_, hmem _ ?_, hmem _ ?_⟩
  · cases h : b.usage.lookup "rgw.main" <;> simp [bucketMetricsFor, h]
  · cases h : b.usage.lookup "rgw.main" <;> simp [bucketMetricsFor, h]
  · cases h : b.usage.lookup "rgw.main" <;> simp [bucketMetricsFor, h]

/-- A bucket with a disabled quota and a negative size limit. -/
def bucketNegQuota : bucketInfoEntry :=
  bucketInfoEntry.mk "b4" "dave" "zg1" 1 [] (bucketQuotaEntry.mk false (-1) 0)

/-- C5 witness: the quota series of a disabled, negative-limit quota
are still published. -/
theorem bucket_quota_series_unconditional_witness :
    Metric.mk "radosgw_usage_bucket_quota_enabled" ["b4", "dave", "zg1"] 0 0
      ∈ bucketMetrics 0 [bucketNoMain, bucketNegQuota]
    ∧ Metric.mk "radosgw_usage_bucket_quota_size_bytes" ["b4", "dave", "zg1"] (-1) 0
      ∈ bucketMetrics 0 [bucketNoMain, bucketNegQuota] :=
  have h := bucket_quota_series_unconditional 0 [bucketNoMain, bucketNegQuota] bucketNegQuota
    (by decide)
  ⟨h.1, h.2.1⟩

theorem queryCephAdminAPI_isErr (signResult : Option String)
    (doResult : Except String httpResponse) :
    isErr (queryCephAdminAPI signResult doResult) = true ↔
      signResult ≠ none ∨ isErr doResult = true
      ∨ ∃ resp, doResult = Except.ok resp
          ∧ (isErr resp.readResult = true ∨ resp.closeResult ≠ none ∨ resp.statusCode ≠ 200) := by
  cases signResult with
  | some e => simp [queryCephAdminAPI, isErr]
  | none =>
    cases doResult with
    | error e => simp [queryCephAdminAPI, isErr]
    | ok resp =>
      cases hr : resp.readResult with
      | error e => simp [queryCephAdminAPI, hr, isErr]
      | ok body =>
        cases hc : resp.closeResult with
        | some e => simp [queryCephAdminAPI, hr, hc, isErr]
        | none =>
          by_cases hs : resp.statusCode = 200
          · simp [queryCephAdminAPI, hr, hc, hs, isErr]
          · simp [queryCephAdminAPI, hr, hc, hs, isErr]

theorem getCephUsageStats_isErr (signResult : Option String)
    (doResult : Except String httpResponse)
    (decodeUsage : String → Except String usageResponse) :
    isErr (getCephUsageStats signResult doResult decodeUsage) = true ↔
      isErr (queryCephAdminAPI signResult doResult) = true
      ∨ ∃ body, queryCephAdminAPI signResult doResult = Except.ok body
          ∧ isErr (decodeUsage body) = true := by
  cases hq : queryCephAdminAPI signResult doResult with
  | error e => simp [getCephUsageStats, hq, isErr]
  | ok body =>
    cases hd : decodeUsage body with
    | error e => simp [getCephUsageStats, hq, hd, isErr]
    | ok u => simp [getCephUsageStats, hq, hd, isErr]

theorem getCephBucketStats_isErr (signResult : Option String)
    (doResult : Except String httpResponse)
    (decodeBuckets : String → Except String (List bucketInfoEntry)) :
    isErr (getCephBucketStats signResult doResult decodeBuckets) = true ↔
      isErr (queryCephAdminAPI signResult doResult) = true
      ∨ ∃ body, queryCephAdminAPI signResult doResult = Except.ok body
          ∧ isErr (decodeBuckets body) = true := by
  cases hq : queryCephAdminAPI signResult doResult with
  | error e => simp [getCephBucketStats, hq, isErr]
  | ok body =>
    cases hd : decodeBuckets body with
    | error e => simp [getCephBucketStats, hq, hd, isErr]
    | ok u => simp [getCephBucketStats, hq, hd, isErr]

theorem getCephUserQuotaStats_isErr (userListResult : Except String (List String))
    (lookup : String → Except String userStats) :
    isErr (getCephUserQuotaStats userListResult lookup) = true ↔
      isErr userListResult = true
      ∨ ∃ users, userListResult = Except.ok users ∧ ∃ u ∈ users, isErr (lookup u) = true := by
  cases userListResult with
  | error e => simp [getCephUserQuotaStats, isErr]
  | ok users =>
    constructor
    · intro h
      exact Or.inr ⟨users, rfl, (collectUserStats_isErr lookup users).mp h⟩
    · intro h
      rcases h with h | ⟨users2, heq, hex⟩
      · exact absurd h (by simp [isErr])
      · injection heq with h2
        subst h2
        exact (collectUserStats_isErr lookup users).mpr hex

/-- C6: each fetcher operation errors exactly when the request itself
fails (signing, performing, reading or closing the response), the
source answers with a non-200 status, the payload fails to decode, or -
for the user-quota fan-out - the user list step or any per-user lookup
fails; and a cycle whose fetch errored is abandoned: the previous
snapshot stays the answer to exposition queries and only the error
counter is bumped. -/
theorem fetcher_error_taxonomy :
    (∀ (signResult : Option String) (doResult : Except String httpResponse),
        isErr (queryCephAdminAPI signResult doResult) = true ↔
          signResult ≠ none ∨ isErr doResult = true
          ∨ ∃ resp, doResult = Except.ok resp
              ∧ (isErr resp.readResult = true ∨ resp.closeResult ≠ none ∨ resp.statusCode ≠ 200))
    ∧ (∀ (signResult : Option String) (doResult : Except String httpResponse)
          (decodeUsage : String → Except String usageResponse),
        isErr (getCephUsageStats signResult doResult decodeUsage) = true ↔
          isErr (queryCephAdminAPI signResult doResult) = true
          ∨ ∃ body, queryCephAdminAPI signResult doResult = Except.ok body
              ∧ isErr (decodeUsage body) = true)
    ∧ (∀ (signResult : Option String) (doResult : Except String httpResponse)
          (decodeBuckets : String → Except String (List bucketInfoEntry)),
        isErr (getCephBucketStats signResult doResult decodeBuckets) = true ↔
          isErr (queryCephAdminAPI signResult doResult) = true
          ∨ ∃ body, queryCephAdminAPI signResult doResult = Except.ok body
              ∧ isErr (decodeBuckets body) = true)
    ∧ (∀ (userListResult : Except String (List String))
          (lookup : String → Except String userStats),
        isErr (getCephUserQuotaStats userListResult lookup) = true ↔
          isErr userListResult = true
          ∨ ∃ users, userListResult = Except.ok users
              ∧ ∃ u ∈ users, isErr (lookup u) = true)
    ∧ (∀ (α M : Type) (transform : α → List M) (e : String) (elapsed : Nat)
          (st : collectorState M),
        collectorAnswer (runCycle transform (Except.error e) elapsed st) = collectorAnswer st
        ∧ (runCycle transform (Except.error e) elapsed st).counters.error = st.counters.error + 1
        ∧ (runCycle transform (Except.error e) elapsed st).counters.success = st.counters.success) :=
  ⟨queryCephAdminAPI_isErr, getCephUsageStats_isErr, getCephBucketStats_isErr,
   getCephUserQuotaStats_isErr, fun _ _ _ _ _ _ => ⟨rfl, rfl, rfl⟩⟩

/-- A 503 response whose body reads fine and closes fine. -/
def resp503 : httpResponse :=
  httpResponse.mk 503 "503 Service Unavailable" (Except.ok "overloaded") none

/-- C6 witness: a non-200 status makes the usage fetch fail. -/
theorem fetcher_error_taxonomy_witness :
    isErr (getCephUsageStats none (Except.ok resp503)
      (fun _ => Except.ok (usageResponse.mk []))) = true :=
  (fetcher_error_taxonomy.2.1 none (Except.ok resp503)
      (fun _ => Except.ok (usageResponse.mk []))).mpr
    (Or.inl ((fetcher_error_taxonomy.1 none (Except.ok resp503)).mpr
      (Or.inr (Or.inr ⟨resp503, rfl, Or.inr (Or.inr (by decide))⟩))))

theorem collectorLoopTrace_succ (j n : Nat) :
    collectorLoopTrace j (n + 1)
      = loopEvent.cycleStart j :: loopEvent.cycleEnd j :: loopEvent.tickWait j
          :: collectorLoopTrace (j + 1) n := rfl

theorem get?_cons3 (a b c : loopEvent) (l : List loopEvent) (k : Nat) :
    (a :: b :: c :: l).get? (k + 3) = l.get? k := rfl

theorem collectorLoopTrace_get (n : Nat) :
    ∀ (j i : Nat), i < n →
      (collectorLoopTrace j n).get? (3 * i) = some (loopEvent.cycleStart (j + i))
      ∧ (collectorLoopTrace j n).get? (3 * i + 1) = some (loopEvent.cycleEnd (j + i))
      ∧ (collectorLoopTrace j n).get? (3 * i + 2) = some (loopEvent.tickWait (j + i)) := by
  induction n with
  | zero =>
    intro j i h
    exact absurd h (Nat.not_lt_zero i)
  | succ m ih =>
    intro j i h
    cases i with
    | zero => exact ⟨rfl, rfl, rfl⟩
    | succ i2 =>
      have ht := ih (j + 1) i2 (by omega)
      have h0 : 3 * (i2 + 1) = 3 * i2 + 3 := by ring
      have h1 : 3 * (i2 + 1) + 1 = (3 * i2 + 1) + 3 := by ring
      have h2 : 3 * (i2 + 1) + 2 = (3 * i2 + 2) + 3 := by ring
      have hj : j + (i2 + 1) = (j + 1) + i2 := by ring
      refine ⟨?_, ?_, ?_⟩
      · rw [collectorLoopTrace_succ, h0, get?_cons3, hj]
        exact ht.1
      · rw [collectorLoopTrace_succ, h1, get?_cons3, hj]
        exact ht.2.1
      · rw [collectorLoopTrace_succ, h2, get?_cons3, hj]
        exact ht.2.2

/-- C7: in the scheduling loop of a collector the first event is the
start of cycle 0 (the first scrape fires before any tick wait), and for
every later cycle the trace places the end of cycle i, then the tick
wait of cycle i, then the start of cycle i+1, at strictly increasing
positions: cycles are strictly sequential and the loop re-arms only
after a cycle fully completes. -/
theorem scrape_cycles_sequential (n i : Nat) (h1 : 0 < n) (h2 : i + 1 < n) :
    (collectorLoopTrace 0 n).get? 0 = some (loopEvent.cycleStart 0)
    ∧ (collectorLoopTrace 0 n).get? (3 * i + 1) = some (loopEvent.cycleEnd i)
    ∧ (collectorLoopTrace 0 n).get? (3 * i + 2) = some (loopEvent.tickWait i)
    ∧ (collectorLoopTrace 0 n).get? (3 * (i + 1)) = some (loopEvent.cycleStart (i + 1))
    ∧ 3 * i + 1 < 3 * i + 2 ∧ 3 * i + 2 < 3 * (i + 1) := by
  have hfirst := collectorLoopTrace_get n 0 0 h1
  have hcur := collectorLoopTrace_get n 0 i (by omega)
  have hnext := collectorLoopTrace_get n 0 (i + 1) h2
  refine ⟨?_, ?_, ?_, ?_, by omega, by omega⟩
  · have := hfirst.1
    simpa using this
  · have := hcur.2.1
    simpa using this
  · have := hcur.2.2
    simpa using this
  · have := hnext.1
    simpa using this

/-- C7 witness: the theorem instantiated on a three-cycle run. -/
theorem scrape_cycles_sequential_witness :
    (collectorLoopTrace 0 3).get? 0 = some (loopEvent.cycleStart 0)
    ∧ (collectorLoopTrace 0 3).get? 1 = some (loopEvent.cycleEnd 0)
    ∧ (collectorLoopTrace 0 3).get? 2 = some (loopEvent.tickWait 0)
    ∧ (collectorLoopTrace 0 3).get? 3 = some (loopEvent.cycleStart 1) := by
  have h := scrape_cycles_sequential 3 0 (by decide) (by decide)
  refine ⟨h.1, ?_, ?_, ?_⟩
  · simpa using h.2.1
  · simpa using h.2.2.1
  · simpa using h.2.2.2.1

/-- C8: every cycle sets the scrape-duration gauge to the elapsed time
of the fetch, success or failure alike, and bumps exactly one of the
two scrape counters. -/
theorem cycle_accounting (α M : Type) (transform : α → List M)
    (fetched : Except String α) (elapsed : Nat) (st : collectorState M) :
    (runCycle transform fetched elapsed st).durationGauge = elapsed
    ∧ (((runCycle transform fetched elapsed st).counters.success = st.counters.success + 1
        ∧ (runCycle transform fetched elapsed st).counters.error = st.counters.error)
      ∨ ((runCycle transform fetched elapsed st).counters.success = st.counters.success
        ∧ (runCycle transform fetched elapsed st).counters.error = st.counters.error + 1)) := by
  cases fetched with
  | error e => exact ⟨rfl, Or.inr ⟨rfl, rfl⟩⟩
  | ok payload => exact ⟨rfl, Or.inl ⟨rfl, rfl⟩⟩

def metricX : Metric := Metric.mk "radosgw_usage_opts_total" ["b1", "alice", "put_obj"] 7 0

/-- C9 counterexample: on a one-metric snapshot the Collect call of the
source sends the metric while still holding the mutex (the unlock is
deferred past the send loop), whereas the claim describes a trace that
copies the snapshot and unlocks before any series is handed off; the
two traces differ. -/
theorem reader_holds_lock_during_send :
    sendWhileLocked 0 (collectTrace [metricX]) = true
    ∧ sendWhileLocked 0 (specCollectTrace [metricX]) = false
    ∧ collectTrace [metricX] ≠ specCollectTrace [metricX] := by
  refine ⟨by decide, by decide, by decide⟩

theorem collectTrace_length (ms : List Metric) : (collectTrace ms).length = ms.length + 2 := by
  simp [collectTrace]

theorem collect_unlock_position (ms : List Metric) :
    (ms.map collectAction.send ++ [collectAction.unlock]).get? ms.length
      = some collectAction.unlock := by
  induction ms with
  | nil => rfl
  | cons m t ih => simp

theorem collect_allSendsLocked_aux (ms : List Metric) :
    allSendsLocked 1 (ms.map collectAction.send ++ [collectAction.unlock]) = true := by
  induction ms with
  | nil => rfl
  | cons m t ih => simpa [allSendsLocked] using ih

/-- C9 (amended): the exposition reader takes the collector lock and
streams every snapshot metric to the gathering channel while holding
it, releasing the lock (deferred) only once, after all series are
handed off: every send in the Collect trace happens with the lock held,
the unlock sits at the position right after the last send, and every
send sits strictly before it.  The publish of a collector can therefore
be blocked for the whole handoff, not just a reference swap; no network
serialization appears in the trace (the wire write happens outside
Collect, after the lock is gone). -/
theorem reader_lock_discipline (ms : List Metric) :
    allSendsLocked 0 (collectTrace ms) = true
    ∧ (collectTrace ms).get? (ms.length + 1) = some collectAction.unlock
    ∧ ∀ (i : Nat) (m : Metric),
        (collectTrace ms).get? i = some (collectAction.send m) → i < ms.length + 1 := by
  refine ⟨?_, ?_, ?_⟩
  · show allSendsLocked 1 (ms.map collectAction.send ++ [collectAction.unlock]) = true
    exact collect_allSendsLocked_aux ms
  · show (ms.map collectAction.send ++ [collectAction.unlock]).get? ms.length
        = some collectAction.unlock
    exact collect_unlock_position ms
  · intro i m hi
    have hbound : i < (collectTrace ms).length := by
      rcases List.get?_eq_some.mp hi with ⟨hlt, _⟩
      exact hlt
    rw [collectTrace_length] at hbound
    by_cases he : i = ms.length + 1
    · subst he
      have hu : (collectTrace ms).get? (ms.length + 1) = some collectAction.unlock := by
        show (ms.map collectAction.send ++ [collectAction.unlock]).get? ms.length
            = some collectAction.unlock
        exact collect_unlock_position ms
      rw [hu] at hi
      exact absurd hi (by simp)
    · omega

/-- C9 witness: the amended theorem on a one-metric snapshot. -/
theorem reader_lock_discipline_witness :
    allSendsLocked 0 (collectTrace [metricX]) = true
    ∧ (collectTrace [metricX]).get? 2 = some collectAction.unlock :=
  ⟨(reader_lock_discipline [metricX]).1, (reader_lock_discipline [metricX]).2.1⟩

/-- C10: a cycle whose fetch succeeds with an empty payload (no usage
entries, no buckets, no users) is a success: the success counter is
bumped and an empty snapshot wholesale replaces whatever was published
before; and the user-quota fetch for an empty user list succeeds with
an empty map. -/
theorem empty_payload_replaces_snapshot (start elapsed : Nat)
    (st1 st2 st3 : collectorState Metric) (lookup : String → Except String userStats) :
    ((runCycle (opsMetrics start) (Except.ok (usageResponse.mk [])) elapsed st1).metrics = []
      ∧ (runCycle (opsMetrics start) (Except.ok (usageResponse.mk [])) elapsed st1).counters.success
        = st1.counters.success + 1)
    ∧ ((runCycle (bucketMetrics start) (Except.ok ([] : List bucketInfoEntry)) elapsed st2).metrics = []
      ∧ (runCycle (bucketMetrics start) (Except.ok ([] : List bucketInfoEntry)) elapsed st2).counters.success
        = st2.counters.success + 1)
    ∧ (getCephUserQuotaStats (Except.ok ([] : List String)) lookup = Except.ok []
      ∧ (runCycle (userMetrics start) (Except.ok ([] : List (String × userStats))) elapsed st3).metrics = []
      ∧ (runCycle (userMetrics start) (Except.ok ([] : List (String × userStats))) elapsed st3).counters.success
        = st3.counters.success + 1) :=
  ⟨⟨rfl, rfl⟩, ⟨rfl, rfl⟩, rfl, rfl, rfl⟩

end RGW
